import Mathlib

/-!
Shallow embedding of the Google-Sheets MCP server (`src/main.py`).

The pure logic of the server — token parsing, identifier-column selection,
record lookup, cell-write planning, sheet formatting, the append-row insertion
point, and the data-payload parsing pipeline — is translated here as Lean
functions.  Backend interaction (gspread) is modelled by explicit state passing:
a sheet is a `List (List String)` of rows, and each backend-mutating call is a
function from sheet state to sheet state.  Backend failures are modelled by an
explicit outcome parameter carrying the backend's error message, so that the
error text the tools surface can be compared with the backend message.
-/

namespace GSheets

/-- The ASCII whitespace characters recognised by Python's `str.split()` /
`str.strip()` (space, tab, newline, carriage return, vertical tab, form feed). -/
def pyIsSpace (c : Char) : Bool :=
  c = ' ' || c = '\t' || c = '\n' || c = '\r' || c = '\x0b' || c = '\x0c'

/-- Helper for `pySplitWs`: accumulates the current token (reversed) and splits
on whitespace, dropping empty tokens, like Python's no-argument `str.split()`. -/
def splitWsAux : List Char → List Char → List (List Char)
  | [], acc => if acc.isEmpty then [] else [acc.reverse]
  | x :: xs, acc =>
    if pyIsSpace x then
      if acc.isEmpty then splitWsAux xs [] else acc.reverse :: splitWsAux xs []
    else splitWsAux xs (x :: acc)

/-- Python `s.split()` (no separator): split on runs of whitespace, no empty
tokens.  Used by `update_sheet_record` for `updates.split()`. -/
def pySplitWs (s : String) : List String :=
  (splitWsAux s.data []).map String.mk

/-- Helper for `pySplitOnChar`. -/
def splitOnCharAux (c : Char) : List Char → List Char → List (List Char)
  | [], acc => [acc.reverse]
  | x :: xs, acc =>
    if x = c then acc.reverse :: splitOnCharAux c xs []
    else splitOnCharAux c xs (x :: acc)

/-- Python `s.split(sep)` for a one-character separator: splits at every
occurrence, keeps empty pieces, and maps `""` to `[""]`. -/
def pySplitOnChar (c : Char) (s : String) : List String :=
  (splitOnCharAux c s.data []).map String.mk

/-- Python `s.strip()` (ASCII whitespace): drop leading and trailing
whitespace. -/
def pyStrip (s : String) : String :=
  String.mk (((s.data.dropWhile pyIsSpace).reverse.dropWhile pyIsSpace).reverse)

/-- Python `s.lower()` on ASCII data, as used for identifier comparison. -/
def pyLower (s : String) : String :=
  String.mk (s.data.map Char.toLower)

/-- Python `t.split('=', 1)` guarded by `'=' in t`: `none` when the token has no
`'='`, otherwise the text before the first `'='` and everything after it. -/
def splitFirstEq (t : String) : Option (String × String) :=
  if t.data.contains '=' then
    some (String.mk (t.data.takeWhile (fun c => c ≠ '=')),
          String.mk ((t.data.dropWhile (fun c => c ≠ '=')).drop 1))
  else none

/-- Python dict assignment `d[k] = v` on an insertion-ordered association list:
overwrite in place when the key exists, append otherwise. -/
def dictInsert (d : List (String × String)) (k v : String) :
    List (String × String) :=
  if d.any (fun p => p.1 == k) then
    d.map (fun p => if p.1 == k then (k, v) else p)
  else d ++ [(k, v)]

/-- The parsing loop of `update_sheet_record` (src/main.py lines 390-398): for
each token, skip it when it has no `'='`; otherwise split on the first `'='`,
record the pair when the column is a header, and fail immediately with the
unknown-column error otherwise. -/
def parseTokens (headers : List String) :
    List String → List (String × String) → Except String (List (String × String))
  | [], d => .ok d
  | t :: ts, d =>
    match splitFirstEq t with
    | none => parseTokens headers ts d
    | some (col, val) =>
      if headers.contains col then parseTokens headers ts (dictInsert d col val)
      else .error ("Error: Column '" ++ col ++ "' not found in sheet")

/-- The parse of the `updates` string in `update_sheet_record`: whitespace tokens fed
through `parseTokens` starting from an empty dict. -/
def parseUpdates (headers : List String) (updates : String) :
    Except String (List (String × String)) :=
  parseTokens headers (pySplitWs updates) []

/-- Identifier-column selection (src/main.py lines 381-388): the first header
equal to `"id"`, else the first equal to `"name"`, else none. -/
def identifierColOf (headers : List String) : Option Nat :=
  if headers.contains "id" then some (headers.indexOf "id")
  else if headers.contains "name" then some (headers.indexOf "name")
  else none

/-- The row-search loop (src/main.py lines 403-408): scan data rows with
1-based sheet indices starting at 2; `row[identifier_col]` raises IndexError
(surfaced as "Error: list index out of range") when the row is shorter than the
identifier column; the first case-insensitive match wins. -/
def findRow (icol : Nat) (identifier : String) :
    List (List String) → Nat → Except String (Option Nat)
  | [], _ => .ok none
  | r :: rs, i =>
    if icol < r.length then
      if pyLower (r.getD icol "") == pyLower identifier then .ok (some i)
      else findRow icol identifier rs (i + 1)
    else .error "Error: list index out of range"

/-- A single planned cell mutation, in the backend's 1-based coordinates. -/
structure CellWrite where
  row : Nat
  col : Nat
  value : String
deriving Repr, DecidableEq

/-- The `', '.join(f'{k}={v}' ...)` rendering of the parsed update dict. -/
def joinUpdates (d : List (String × String)) : String :=
  String.intercalate ", " (d.map (fun p => p.1 ++ "=" ++ p.2))

/-- The planning phase of `update_sheet_record` (src/main.py lines 374-418):
empty-sheet check, identifier-column selection, update parsing, no-updates
check, row search, then one `CellWrite` per parsed pair at the matched row and
the column's 1-based header index.  Errors are the exact strings the tool
returns. -/
def update_plan (all_values : List (List String)) (identifier : String)
    (updates : String) : Except String (List CellWrite × String) :=
  match all_values with
  | [] => .error "Error: Sheet is empty"
  | headers :: dataRows =>
    match identifierColOf headers with
    | none => .error "Error: Sheet must have either 'id' or 'name' column as identifier"
    | some icol =>
      match parseUpdates headers updates with
      | .error e => .error e
      | .ok d =>
        if d.isEmpty then .error "Error: No valid updates provided"
        else
          match findRow icol identifier dataRows 2 with
          | .error e => .error e
          | .ok none =>
            .error ("Error: No record found with "
              ++ (if headers.contains "id" then "id" else "name")
              ++ " '" ++ identifier ++ "'")
          | .ok (some ri) =>
            .ok (d.map (fun p => CellWrite.mk ri (headers.indexOf p.1 + 1) p.2),
              "Successfully updated record with "
                ++ (if headers.contains "id" then "id" else "name")
                ++ " '" ++ identifier ++ "' with: " ++ joinUpdates d)

/-- Pad a row with empty cells up to length `n`. -/
def padTo (r : List String) (n : Nat) : List String :=
  r ++ List.replicate (n - r.length) ""

/-- gspread `worksheet.update_cell(row, col, val)` on the sheet grid: 1-based
coordinates; the sheet is extended with empty rows/cells when the target lies
beyond current content. -/
def setCell (grid : List (List String)) (row col : Nat) (v : String) :
    List (List String) :=
  let g := grid ++ List.replicate (row - grid.length) []
  g.set (row - 1) ((padTo (g.getD (row - 1) []) col).set (col - 1) v)

/-- Apply the planned writes one cell at a time, in plan order (src/main.py
lines 420-422). -/
def applyWrites (grid : List (List String)) (ws : List CellWrite) :
    List (List String) :=
  ws.foldl (fun g w => setCell g w.row w.col w.value) grid

/-- The full `update_sheet_record` tool against a fetched grid: returns the
surfaced message and the resulting sheet state.  On any planning error the
sheet is untouched; on success every planned write is applied after planning
completes. -/
def update_sheet_record (grid : List (List String)) (identifier : String)
    (updates : String) : String × List (List String) :=
  match update_plan grid identifier updates with
  | .error e => (e, grid)
  | .ok (ws, msg) => (msg, applyWrites grid ws)

/-- The dict `get_sheet_data` hands to `format_sheet_data`: either an error
record (`{"error": e}`) or a success record (`{"title": t, "data": rows}`). -/
inductive SheetData where
  | err (e : String)
  | ok (title : String) (data : List (List String))

/-- Model of `GoogleSheetsClient.format_sheet_data` (src/main.py lines 184-205).  The
source checks `not data["data"]` (empty grid) before binding `rows` and then
checks `if not rows` again, so the second check — the `"Sheet is empty"`
return — repeats the first and is kept here exactly as written. -/
def format_sheet_data : SheetData → String
  | .err e => "Error: " ++ e
  | .ok _ rows =>
    if rows.isEmpty then "No data found in the sheet"
    else if rows.isEmpty then "Sheet is empty"
    else
      let header := String.intercalate " | " (rows.headD [])
      let separator := String.mk (List.replicate header.length '-')
      String.intercalate "\n"
        ([header, separator] ++ (rows.drop 1).map (String.intercalate " | "))

/-- The `get_sheet_content` tool: fetch (modelled by the `SheetData` argument)
then format. -/
def get_sheet_content (fetched : SheetData) : String :=
  format_sheet_data fetched

/-- gspread `worksheet.update('A{startRow}', data)` at row granularity: rows
before `startRow` are kept (padded with empty rows if the sheet is shorter),
`data` replaces the block starting at 1-based `startRow`, and rows beyond the
block are kept. -/
def wsUpdateAt (sheet : List (List String)) (startRow : Nat)
    (data : List (List String)) : List (List String) :=
  (sheet.take (startRow - 1)
      ++ List.replicate ((startRow - 1) - sheet.length) ([] : List String))
    ++ data ++ sheet.drop (startRow - 1 + data.length)

/-- Model of `GoogleSheetsClient.add_data_to_sheet` (src/main.py lines 222-238), success
path: `next_row = len(worksheet.get_all_values()) + 1` computed from the
sheet's current state, then `worksheet.update(f'A{next_row}', data)`. -/
def client_add_data_to_sheet (sheet : List (List String))
    (data : List (List String)) : List (List String) :=
  wsUpdateAt sheet (sheet.length + 1) data

/-- Outcome of `eval(data_str)` in the `add_data_to_sheet` tool.  `eval` runs
arbitrary Python, so its result on a given string is an input to the model:
it raised, returned a non-list value, or returned a list (of rows). -/
inductive EvalOutcome where
  | raises
  | nonList
  | listVal (v : List (List String))

/-- The CSV fallback `[line.split(',') for line in data_str.strip().split('\n')]`
(src/main.py lines 337 and 341). -/
def csvParse (s : String) : List (List String) :=
  (pySplitOnChar '\n' (pyStrip s)).map (fun line => pySplitOnChar ',' line)

/-- The CSV fallback as Python runs it inside `try`: the `Option` is `none`
when the expression raises.  `str.strip` and `str.split` are total, so it
always returns `some`. -/
def csvTry (s : String) : Option (List (List String)) :=
  some (csvParse s)

/-- The literal error string of the tool's format-error branch. -/
def invalidFormatMsg : String :=
  "Error: Invalid data format. Please provide data in the correct format (either as a list of lists or as CSV)."

/-- The parsing pipeline of the `add_data_to_sheet` tool (src/main.py lines
331-343): `eval` first; when it returns a non-list the CSV parse runs inside
the same `try` (an exception there falls to the `except` branch, which retries
the CSV parse); when `eval` raises, the `except` branch runs the CSV parse; if
that also raises, the format-error string is returned. -/
def add_data_parse (ev : EvalOutcome) (s : String) :
    Except String (List (List String)) :=
  match ev with
  | .listVal v => .ok v
  | .nonList =>
    match csvTry s with
    | some d => .ok d
    | none =>
      match csvTry s with
      | some d => .ok d
      | none => .error invalidFormatMsg
  | .raises =>
    match csvTry s with
    | some d => .ok d
    | none => .error invalidFormatMsg

/-- The full `add_data_to_sheet` tool (src/main.py lines 326-353): parse the
payload, then call the client append.  `backendFail` carries the backend
exception message when the append raises; the client catches it and returns
`False`, so the tool surfaces the fixed failure text.  Returns the surfaced
message and the resulting sheet state. -/
def add_data_tool (ev : EvalOutcome) (s : String) (sheetTitle : String)
    (backendFail : Option String) (sheet : List (List String)) :
    String × List (List String) :=
  match add_data_parse ev s with
  | .error e => (e, sheet)
  | .ok d =>
    match backendFail with
    | some _ => ("Error: Failed to add data to the sheet", sheet)
    | none => ("Successfully added " ++ toString d.length ++ " records to "
        ++ sheetTitle, client_add_data_to_sheet sheet d)

/-- A backend call failing with an exception, as the client methods observe it:
an `APIError` carrying `str(e)`, a `SpreadsheetNotFound`, or any other
exception carrying `str(e)`. -/
inductive BackendFailure where
  | apiError (msg : String)
  | notFound (msg : String)
  | other (msg : String)

/-- Error text `GoogleSheetsClient.get_all_spreadsheets` surfaces (src/main.py
lines 106-112): `APIError` is prefixed, any other exception is surfaced as
`str(e)` by the generic handler. -/
def list_spreadsheets_error_text : BackendFailure → String
  | .apiError m => "API Error: " ++ m
  | .notFound m => m
  | .other m => m

/-- Error text `GoogleSheetsClient.get_spreadsheet_info` surfaces (src/main.py
lines 143-153): not-found maps to a fixed message, `APIError` is prefixed,
anything else is `str(e)`. -/
def spreadsheet_info_error_text : BackendFailure → String
  | .apiError m => "API Error: " ++ m
  | .notFound _ => "Spreadsheet not found. Please check the ID and sharing permissions."
  | .other m => m

/-- Error text `GoogleSheetsClient.get_sheet_data` surfaces (src/main.py lines
172-182); `get_sheet_content` then renders it through `format_sheet_data` as
`"Error: " ++ text`. -/
def sheet_data_error_text : BackendFailure → String
  | .apiError m => "API Error: " ++ m
  | .notFound _ => "Spreadsheet not found. Please check the ID and sharing permissions."
  | .other m => m

/-- Surfaced text of `get_sheet_content` when the fetch fails. -/
def get_sheet_content_error_text (f : BackendFailure) : String :=
  get_sheet_content (.err (sheet_data_error_text f))

/-- Surfaced text of the `add_data_to_sheet` tool when the backend append
raises `f`: the client method catches every exception and returns `False`
(src/main.py lines 236-238), so the tool returns the fixed failure text
(src/main.py line 350). -/
def add_data_backend_error_text (ev : EvalOutcome) (s : String)
    (sheetTitle : String) (f : BackendFailure)
    (sheet : List (List String)) : String :=
  (add_data_tool ev s sheetTitle
    (some (match f with | .apiError m => m | .notFound m => m | .other m => m))
    sheet).1

/-- Whether `sub` occurs contiguously in `s`. -/
def containsSubstr (s sub : String) : Bool :=
  (List.range (s.data.length + 1)).any
    (fun i => sub.data.isPrefixOf (s.data.drop i))

/-- A token whose column (when it has one) is a known header; used to state
that the unknown-column failure happens at the first offending token. -/
def tokenKnown (headers : List String) (u : String) : Bool :=
  match splitFirstEq u with
  | none => true
  | some (c, _) => headers.contains c

/-- Success test for an `Except` value. -/
def exceptIsOk {ε α : Type} : Except ε α → Bool
  | .ok _ => true
  | .error _ => false

/-- The first data row (0-based) whose identifier-column cell equals the
identifier case-insensitively — the spec's row-selection rule, stated
independently of the scanning loop. -/
def specFirstMatch (icol : Nat) (identifier : String) :
    List (List String) → Option Nat
  | [] => none
  | r :: rs =>
    if pyLower (r.getD icol "") == pyLower identifier then some 0
    else (specFirstMatch icol identifier rs).map (· + 1)

/-! ### Helper lemmas -/

theorem splitOnCharAux_ne_nil (c : Char) (l acc : List Char) :
    splitOnCharAux c l acc ≠ [] := by
  induction l generalizing acc with
  | nil => simp [splitOnCharAux]
  | cons x xs ih =>
    simp only [splitOnCharAux]
    split
    · simp
    · exact ih _

theorem csvParse_isEmpty (s : String) : (csvParse s).isEmpty = false := by
  have h := splitOnCharAux_ne_nil '\n' (pyStrip s).data []
  simp [csvParse, pySplitOnChar, List.isEmpty_iff]
  intro hcontra
  exact h hcontra

theorem findRow_eq_specFirstMatch (icol : Nat) (identifier : String)
    (rows : List (List String)) (i : Nat)
    (hrect : rows.all (fun r => decide (icol < r.length)) = true) :
    findRow icol identifier rows i =
      .ok ((specFirstMatch icol identifier rows).map (· + i)) := by
  induction rows generalizing i with
  | nil => simp [findRow, specFirstMatch]
  | cons r rs ih =>
    simp only [List.all_cons, Bool.and_eq_true, decide_eq_true_eq] at hrect
    simp only [findRow, specFirstMatch, hrect.1, if_true]
    split
    · simp
    · rw [ih (i + 1) hrect.2]
      cases specFirstMatch icol identifier rs with
      | none => simp
      | some j => simp; omega

theorem dictInsert_all (p : String × String → Bool)
    (d : List (String × String)) (k v : String)
    (hd : d.all p = true) (hkv : p (k, v) = true) :
    (dictInsert d k v).all p = true := by
  simp only [dictInsert]
  split
  · simp only [List.all_map, List.all_eq_true] at hd ⊢
    intro q hq
    simp only [Function.comp]
    split
    · exact hkv
    · exact hd q hq
  · simp [List.all_append, hd, hkv]

theorem parseTokens_ok_all_contains (headers : List String)
    (ts : List String) (d0 d : List (String × String))
    (h0 : d0.all (fun p => headers.contains p.1) = true)
    (h : parseTokens headers ts d0 = .ok d) :
    d.all (fun p => headers.contains p.1) = true := by
  induction ts generalizing d0 with
  | nil =>
    simp only [parseTokens, Except.ok.injEq] at h
    exact h ▸ h0
  | cons t ts ih =>
    simp only [parseTokens] at h
    split at h
    · exact ih d0 h0 h
    · split at h
      · rename_i col val heq hc
        exact ih _ (dictInsert_all _ d0 col val h0 hc) h
      · exact absurd h (by simp)

theorem client_add_eq_append (sheet data : List (List String)) :
    client_add_data_to_sheet sheet data = sheet ++ data := by
  simp [client_add_data_to_sheet, wsUpdateAt, List.drop_eq_nil_of_le]

theorem dropWhile_ne_of_contains (a : Char) (l : List Char)
    (h : l.contains a = true) :
    l.dropWhile (fun c => c ≠ a) = a :: (l.dropWhile (fun c => c ≠ a)).drop 1 := by
  induction l with
  | nil => simp at h
  | cons x xs ih =>
    by_cases hx : x = a
    · subst hx
      simp [List.dropWhile_cons]
    · simp only [List.contains_cons, Bool.or_eq_true, beq_iff_eq] at h
      rcases h with h | h
      · exact absurd h.symm hx
      · simpa [List.dropWhile_cons, hx] using ih h

theorem splitFirstEq_some (t col val : String)
    (h : splitFirstEq t = some (col, val)) :
    t = col ++ "=" ++ val ∧ col.data.contains '=' = false := by
  simp only [splitFirstEq] at h
  split at h
  · rename_i hc
    simp only [Option.some.injEq, Prod.mk.injEq] at h
    obtain ⟨hcol, hval⟩ := h
    have hc' : col.data = t.data.takeWhile (fun c => decide (c ≠ '=')) :=
      (congrArg String.data hcol).symm
    have hv' : val.data = (t.data.dropWhile (fun c => decide (c ≠ '='))).drop 1 :=
      (congrArg String.data hval).symm
    have hdata : t.data = col.data ++ '=' :: val.data := by
      rw [hc', hv']
      conv_lhs => rw [← List.takeWhile_append_dropWhile
        (p := fun c => decide (c ≠ '=')) (l := t.data),
        dropWhile_ne_of_contains '=' t.data hc]
    refine ⟨String.ext ?_, ?_⟩
    · have heqd : ("=" : String).data = ['='] := by decide
      rw [hdata, String.data_append, String.data_append, heqd]
      simp
    · rw [hc']
      cases hcc : (t.data.takeWhile (fun c => decide (c ≠ '='))).contains '='
      · rfl
      · have hmem := List.mem_of_elem_eq_true hcc
        have := List.mem_takeWhile_imp hmem
        simp at this
  · exact absurd h (by simp)

theorem parseTokens_skip (headers : List String) (ts1 ts2 : List String)
    (t : String) (d : List (String × String))
    (h : splitFirstEq t = none) :
    parseTokens headers (ts1 ++ t :: ts2) d
      = parseTokens headers (ts1 ++ ts2) d := by
  induction ts1 generalizing d with
  | nil => simp only [List.nil_append, parseTokens, h]
  | cons u ts1 ih =>
    simp only [List.cons_append, parseTokens]
    split
    · exact ih d
    · split
      · exact ih _
      · rfl

theorem parseTokens_first_unknown (headers : List String) (ts1 : List String)
    (t : String) (ts2 : List String) (col val : String)
    (d : List (String × String))
    (hknown : ts1.all (tokenKnown headers) = true)
    (hsp : splitFirstEq t = some (col, val))
    (hcol : headers.contains col = false) :
    parseTokens headers (ts1 ++ t :: ts2) d
      = .error ("Error: Column '" ++ col ++ "' not found in sheet") := by
  induction ts1 generalizing d with
  | nil =>
    simp only [List.nil_append, parseTokens, hsp]
    rw [if_neg (by rw [hcol]; decide)]
  | cons u ts1 ih =>
    simp only [List.all_cons, Bool.and_eq_true] at hknown
    simp only [List.cons_append, parseTokens]
    split
    · exact ih d hknown.2
    · rename_i c v hu
      have hc : headers.contains c = true := by
        have h1 := hknown.1
        simpa [tokenKnown, hu] using h1
      rw [if_pos hc]
      exact ih _ hknown.2

theorem update_record_parse_error (headers : List String)
    (rows : List (List String)) (identifier updates e : String) (icol : Nat)
    (hic : identifierColOf headers = some icol)
    (hperr : parseUpdates headers updates = .error e) :
    update_sheet_record (headers :: rows) identifier updates
      = (e, headers :: rows) := by
  simp only [update_sheet_record, update_plan, hic, hperr]

/-! ### Claim theorems -/

/-- C1: for the grid `[["id","name"],["1","Alice"],["2","Bob"]]`, identifier
`"2"`, and update expression `"name=Bobby"`, the planning phase of
`update_sheet_record` produces exactly one cell write, at 1-based row 3 and
1-based column 2, with value `"Bobby"`. -/
theorem update_plan_example_single_write :
    update_plan [["id", "name"], ["1", "Alice"], ["2", "Bob"]] "2" "name=Bobby"
      = .ok ([CellWrite.mk 3 2 "Bobby"],
        "Successfully updated record with id '2' with: name=Bobby") := by
  rfl

/-- C6 counterexample: on the fully empty grid, `format_sheet_data` (and hence
`get_sheet_content`) returns `"No data found in the sheet"`, not
`"Sheet is empty"` as the claim states for grids with zero rows. -/
theorem format_empty_grid_counterexample :
    get_sheet_content (.ok "Sheet1" []) = "No data found in the sheet" ∧
    (get_sheet_content (.ok "Sheet1" []) == "Sheet is empty") = false := by
  exact ⟨rfl, by decide⟩

/-- C6 amended: `get_sheet_content` returns `"No data found in the sheet"` on
every empty grid; the `"Sheet is empty"` string is not returned there, its
guard being subsumed by the empty-grid check. -/
theorem format_empty_grid_is_no_data (t : String) :
    get_sheet_content (.ok t []) = "No data found in the sheet" ∧
    (get_sheet_content (.ok t []) == "Sheet is empty") = false := by
  exact ⟨rfl, rfl⟩

/-- C7: the client append writes the given rows starting at the first row
beyond current content, computed from the sheet's length at call time, so the
result is exactly the old sheet followed by the new rows in order, existing
rows are untouched, and two sequential one-row appends to an empty sheet
produce row 1 then row 2 with row 1 unchanged. -/
theorem client_add_appends (sheet data : List (List String))
    (r1 r2 : List String) :
    client_add_data_to_sheet sheet data = sheet ++ data ∧
    (client_add_data_to_sheet sheet data).take sheet.length = sheet ∧
    client_add_data_to_sheet (client_add_data_to_sheet [] [r1]) [r2]
      = [r1, r2] := by
  refine ⟨client_add_eq_append sheet data, ?_, ?_⟩
  · rw [client_add_eq_append]
    exact List.take_left sheet data
  · rw [client_add_eq_append, client_add_eq_append]
    rfl

/-- C8: the `add_data_to_sheet` tool uses the result of the nested-list parse
when it yields a list, falls back to the CSV-line parse when the nested-list
parse raises or yields a non-list, parses `"a,b\nc,d"` to
`[["a","b"],["c","d"]]`, and returns the format error with the sheet untouched
(no backend call) exactly in the branch where the CSV parse also fails. -/
theorem add_data_parse_order (v : List (List String)) (s sheetTitle : String)
    (backendFail : Option String) (sheet : List (List String)) :
    add_data_parse (.listVal v) s = .ok v ∧
    add_data_parse .raises s = .ok (csvParse s) ∧
    add_data_parse .nonList s = .ok (csvParse s) ∧
    add_data_parse .raises "a,b\nc,d" = .ok [["a", "b"], ["c", "d"]] ∧
    (match csvTry s with
      | some d => add_data_parse .raises s = .ok d
      | none =>
        add_data_parse .raises s = .error invalidFormatMsg ∧
        add_data_tool .raises s sheetTitle backendFail sheet
          = (invalidFormatMsg, sheet)) := by
  refine ⟨rfl, rfl, rfl, by rfl, ?_⟩
  simp [csvTry, add_data_parse]

/-- C9 counterexample: when the backend append fails with message
`"quota exceeded"`, the `add_data_to_sheet` tool surfaces the fixed text
`"Error: Failed to add data to the sheet"`, which does not contain the backend
message — so backend errors are not preserved verbatim on the append path. -/
theorem add_data_error_not_verbatim :
    add_data_backend_error_text .raises "a,b" "Sheet1"
        (.apiError "quota exceeded") []
      = "Error: Failed to add data to the sheet" ∧
    containsSubstr
      (add_data_backend_error_text .raises "a,b" "Sheet1"
        (.apiError "quota exceeded") [])
      "quota exceeded" = false := by
  exact ⟨rfl, by decide⟩

/-- C9 amended: backend API errors and generic exceptions surfaced by
`list_spreadsheets`, `get_spreadsheet_info`, and `get_sheet_content` carry the
backend message verbatim in the surfaced error text, while the append path
discards the backend message and returns the fixed failure text. -/
theorem backend_error_text_verbatim (m : String) (ev : EvalOutcome)
    (s sheetTitle : String) (sheet : List (List String)) :
    list_spreadsheets_error_text (.apiError m) = "API Error: " ++ m ∧
    list_spreadsheets_error_text (.other m) = m ∧
    spreadsheet_info_error_text (.apiError m) = "API Error: " ++ m ∧
    spreadsheet_info_error_text (.other m) = m ∧
    get_sheet_content_error_text (.apiError m)
      = "Error: " ++ ("API Error: " ++ m) ∧
    get_sheet_content_error_text (.other m) = "Error: " ++ m ∧
    add_data_backend_error_text ev s sheetTitle (.apiError m) sheet
      = "Error: Failed to add data to the sheet" := by
  refine ⟨rfl, rfl, rfl, rfl, rfl, rfl, ?_⟩
  cases ev <;> rfl

/-- C2: with an identifier column selected and a non-empty parsed update set,
`update_sheet_record` targets the first data row (in scan order) whose
identifier-column cell matches the identifier case-insensitively — every
planned write lands on that row's 1-based grid index, later matches being
ignored — and when no data row matches it fails with the record-not-found
error naming the identifier, leaving the sheet unchanged.  The rectangularity
hypothesis reflects the backend contract that fetched grids are rectangular
(a shorter row would make the scan raise an index error instead). -/
theorem update_record_first_match (headers : List String)
    (rows : List (List String)) (identifier updates : String) (icol : Nat)
    (d : List (String × String))
    (hic : identifierColOf headers = some icol)
    (hparse : parseUpdates headers updates = .ok d)
    (hne : d.isEmpty = false)
    (hrect : rows.all (fun r => decide (icol < r.length)) = true) :
    match specFirstMatch icol identifier rows with
    | some j =>
      update_plan (headers :: rows) identifier updates =
        .ok (d.map (fun p => CellWrite.mk (j + 2) (headers.indexOf p.1 + 1) p.2),
          "Successfully updated record with "
            ++ (if headers.contains "id" then "id" else "name")
            ++ " '" ++ identifier ++ "' with: " ++ joinUpdates d)
    | none =>
      update_sheet_record (headers :: rows) identifier updates =
        ("Error: No record found with "
          ++ (if headers.contains "id" then "id" else "name")
          ++ " '" ++ identifier ++ "'", headers :: rows) := by
  have hfr := findRow_eq_specFirstMatch icol identifier rows 2 hrect
  cases hm : specFirstMatch icol identifier rows with
  | some j =>
    rw [hm] at hfr
    simp only [update_plan, hic, hparse, hne, hfr, Option.map_some',
      Bool.false_eq_true, if_false]
  | none =>
    rw [hm] at hfr
    simp only [update_sheet_record, update_plan, hic, hparse, hne, hfr,
      Option.map_none', Bool.false_eq_true, if_false]

/-- Witness for C2 at concrete inputs: the matching case picks the first
matching row (row 3) and the non-matching identifier `"9"` yields the
record-not-found error with the grid unchanged. -/
theorem update_record_first_match_witness :
    update_plan [["id", "name"], ["1", "Alice"], ["2", "Bob"]] "2" "name=Bo"
      = .ok ([CellWrite.mk 3 2 "Bo"],
        "Successfully updated record with id '2' with: name=Bo") ∧
    update_sheet_record [["id", "name"], ["1", "Alice"], ["2", "Bob"]] "9"
        "name=X"
      = ("Error: No record found with id '9'",
        [["id", "name"], ["1", "Alice"], ["2", "Bob"]]) := by
  constructor
  · have h := update_record_first_match ["id", "name"]
      [["1", "Alice"], ["2", "Bob"]] "2" "name=Bo" 0 [("name", "Bo")]
      rfl rfl rfl (by decide)
    exact h
  · have h := update_record_first_match ["id", "name"]
      [["1", "Alice"], ["2", "Bob"]] "9" "name=X" 0 [("name", "X")]
      rfl rfl rfl (by decide)
    exact h

/-- C3: planning is all-or-nothing — `update_plan` either succeeds with a
write set containing exactly one write per parsed `column=value` pair (all of
whose columns are valid headers, each write carrying that pair's value and
1-based column index) or fails, in which case `update_sheet_record` leaves the
sheet unchanged; on success the writes are applied to the grid only as the
full planned set, after planning has completed. -/
theorem update_plan_all_or_nothing (grid : List (List String))
    (identifier updates : String) :
    match update_plan grid identifier updates with
    | .error e => update_sheet_record grid identifier updates = (e, grid)
    | .ok (ws, msg) =>
      update_sheet_record grid identifier updates = (msg, applyWrites grid ws) ∧
      ∃ headers dataRows d ri,
        grid = headers :: dataRows ∧
        parseUpdates headers updates = Except.ok d ∧
        d.isEmpty = false ∧
        d.all (fun p => headers.contains p.1) = true ∧
        ws = d.map (fun p => CellWrite.mk ri (headers.indexOf p.1 + 1) p.2) := by
  cases hplan : update_plan grid identifier updates with
  | error e => simp only [update_sheet_record, hplan]
  | ok pr =>
    obtain ⟨ws, msg⟩ := pr
    refine ⟨by simp only [update_sheet_record, hplan], ?_⟩
    cases grid with
    | nil => exact absurd hplan (by simp [update_plan])
    | cons headers dataRows =>
      simp only [update_plan] at hplan
      split at hplan
      · exact absurd hplan (by simp)
      · rename_i icol hic
        split at hplan
        · exact absurd hplan (by simp)
        · rename_i d hd
          split at hplan
          · exact absurd hplan (by simp)
          · rename_i hdne
            split at hplan
            · exact absurd hplan (by simp)
            · exact absurd hplan (by simp)
            · rename_i ri hri
              simp only [Except.ok.injEq, Prod.mk.injEq] at hplan
              refine ⟨headers, dataRows, d, ri, rfl, hd, ?_, ?_, hplan.1.symm⟩
              · cases hbe : d.isEmpty
                · rfl
                · exact absurd hbe hdne
              · exact parseTokens_ok_all_contains headers (pySplitWs updates)
                  [] d (by simp) hd

/-- C4: the update expression is split into whitespace tokens; a token with an
`'='` splits at its first `'='` (the column contains no `'='`, the value may);
tokens without `'='` are dropped without effect; the first token whose column
is not a header makes parsing fail with the unknown-column error naming it,
whatever follows; and a parse failure surfaces that error with the sheet
unchanged. -/
theorem update_parse_spec (headers : List String) :
    (∀ updates, parseUpdates headers updates
        = parseTokens headers (pySplitWs updates) []) ∧
    (∀ t col val, splitFirstEq t = some (col, val) →
      t = col ++ "=" ++ val ∧ col.data.contains '=' = false) ∧
    (∀ ts1 ts2 t d, splitFirstEq t = none →
      parseTokens headers (ts1 ++ t :: ts2) d
        = parseTokens headers (ts1 ++ ts2) d) ∧
    (∀ ts1 t ts2 col val d, ts1.all (tokenKnown headers) = true →
      splitFirstEq t = some (col, val) → headers.contains col = false →
      parseTokens headers (ts1 ++ t :: ts2) d
        = .error ("Error: Column '" ++ col ++ "' not found in sheet")) ∧
    (∀ rows identifier updates e icol,
      identifierColOf headers = some icol →
      parseUpdates headers updates = .error e →
      update_sheet_record (headers :: rows) identifier updates
        = (e, headers :: rows)) := by
  refine ⟨fun _ => rfl, splitFirstEq_some, parseTokens_skip headers, ?_, ?_⟩
  · intro ts1 t ts2 col val d hknown hsp hcol
    exact parseTokens_first_unknown headers ts1 t ts2 col val d hknown hsp hcol
  · intro rows identifier updates e icol hic hperr
    exact update_record_parse_error headers rows identifier updates e icol
      hic hperr

/-- Witness for C4 at concrete inputs: a value keeps its embedded `'='`, a
token without `'='` is ignored, the first unknown column aborts parsing with
its error, and `update_sheet_record` surfaces that error with the grid
unchanged. -/
theorem update_parse_spec_witness :
    ("a=b=c" = "a" ++ "=" ++ "b=c") ∧
    parseTokens ["id", "name"] (["id=1", "junk"] ++ ["name=A"]) []
      = parseTokens ["id", "name"] (["id=1"] ++ "junk" :: ["name=A"]) [] ∧
    parseTokens ["id", "name"] (["id=1", "junk"] ++ "qty=2" :: ["name=A"]) []
      = .error "Error: Column 'qty' not found in sheet" ∧
    update_sheet_record [["id", "name"], ["1", "Alice"]] "1" "qty=2"
      = ("Error: Column 'qty' not found in sheet",
        [["id", "name"], ["1", "Alice"]]) := by
  refine ⟨((update_parse_spec ["id", "name"]).2.1 "a=b=c" "a" "b=c" rfl).1,
    ((update_parse_spec ["id", "name"]).2.2.1 ["id=1"] ["name=A"] "junk" []
      rfl).symm, ?_, ?_⟩
  · exact (update_parse_spec ["id", "name"]).2.2.2.1 ["id=1", "junk"] "qty=2"
      ["name=A"] "qty" "2" [] (by decide) rfl rfl
  · exact (update_parse_spec ["id", "name"]).2.2.2.2 [["1", "Alice"]] "1"
      "qty=2" "Error: Column 'qty' not found in sheet" 0 rfl rfl

/-- C5: on a non-empty grid the identifier column is the header literally
equal to `"id"` when one exists, else the header literally equal to `"name"`;
with neither present, `update_sheet_record` fails with the
no-identifier-column error — whatever the identifier and update expression —
and leaves the sheet unchanged. -/
theorem identifier_column_selection (headers : List String)
    (rows : List (List String)) (identifier updates : String) :
    (headers.contains "id" = true →
      identifierColOf headers = some (headers.indexOf "id")) ∧
    (headers.contains "id" = false → headers.contains "name" = true →
      identifierColOf headers = some (headers.indexOf "name")) ∧
    (headers.contains "id" = false → headers.contains "name" = false →
      update_sheet_record (headers :: rows) identifier updates
        = ("Error: Sheet must have either 'id' or 'name' column as identifier",
          headers :: rows)) := by
  refine ⟨?_, ?_, ?_⟩
  · intro h
    simp only [identifierColOf, h, if_true]
  · intro h1 h2
    simp only [identifierColOf, h1, h2, Bool.false_eq_true, if_false, if_true]
  · intro h1 h2
    simp only [update_sheet_record, update_plan, identifierColOf, h1, h2,
      Bool.false_eq_true, if_false]

/-- Witness for C5 at concrete inputs: `"id"` wins over `"name"`, `"name"` is
used when `"id"` is absent, and the header `["sku","qty"]` makes the update
fail with the no-identifier-column error for an arbitrary request. -/
theorem identifier_column_selection_witness :
    identifierColOf ["name", "id"] = some 1 ∧
    identifierColOf ["sku", "name"] = some 1 ∧
    update_sheet_record [["sku", "qty"], ["1", "2"]] "1" "qty=3"
      = ("Error: Sheet must have either 'id' or 'name' column as identifier",
        [["sku", "qty"], ["1", "2"]]) := by
  refine ⟨?_, ?_, ?_⟩
  · exact (identifier_column_selection ["name", "id"] [] "" "").1 rfl
  · exact (identifier_column_selection ["sku", "name"] [] "" "").2.1 rfl rfl
  · exact (identifier_column_selection ["sku", "qty"] [["1", "2"]] "1"
      "qty=3").2.2 rfl rfl

/-- C10: the CSV fallback parse is total and never yields an empty list, so
the `"Invalid data format"` branch of `add_data_to_sheet` is unreachable and
the backend is invoked for every payload whose nested-list parse fails; an
empty or whitespace-only payload parses to `[[""]]` and is sent to the
backend. -/
theorem csv_fallback_total (s sheetTitle : String)
    (sheet : List (List String)) :
    csvTry s = some (csvParse s) ∧
    (csvParse s).isEmpty = false ∧
    (∀ ev : EvalOutcome, exceptIsOk (add_data_parse ev s) = true) ∧
    add_data_tool .raises s sheetTitle none sheet
      = ("Successfully added " ++ toString (csvParse s).length
          ++ " records to " ++ sheetTitle,
        client_add_data_to_sheet sheet (csvParse s)) ∧
    csvParse "" = [[""]] ∧
    csvParse "   " = [[""]] ∧
    add_data_tool .raises "" sheetTitle none sheet
      = ("Successfully added 1 records to " ++ sheetTitle,
        client_add_data_to_sheet sheet [[""]]) := by
  refine ⟨rfl, csvParse_isEmpty s, ?_, rfl, by rfl, by rfl, by rfl⟩
  intro ev
  cases ev <;> rfl

end GSheets
